import Mathlib

/-!
Verification of the UNH-CORE turbine-test-bed calibration scripts
(`drag_left/run.py` and `torque_arm/run.py`).

The scripts drive an operator through a sequence of applied-load setpoints,
acquire a bridge-voltage-ratio window at each setpoint, aggregate each window
with `np.mean` / `np.std`, and fit applied quantity versus signal with
`scipy.stats.linregress`.  Numeric values are embedded as exact rationals;
NaN-producing numpy operations are embedded with an explicit `NpFloat.nan`
constructor.  Exceptions (hardware acquisition faults, scipy `ValueError`s)
are embedded with `Except`.
-/

/-- A numpy floating-point result: either a numeric value or NaN
(as produced e.g. by `np.mean` on an empty array). -/
inductive NpFloat where
  | nan : NpFloat
  | val : ℚ → NpFloat
deriving DecidableEq, Repr

/-- `np.mean`: arithmetic mean of the entries; NaN on an empty array
(numpy emits a RuntimeWarning and returns `nan`, it does not raise). -/
def npMean (w : List ℚ) : NpFloat :=
  if w = [] then .nan else .val (w.sum / w.length)

/-- Arithmetic mean as a rational (value of `np.mean` on a non-empty list). -/
def meanQ (w : List ℚ) : ℚ := w.sum / w.length

/-- Value of `np.var` (ddof = 0, population divisor `n`) on a non-empty list;
`np.std` is the square root of this quantity. -/
def npVarQ (w : List ℚ) : ℚ :=
  ((w.map (fun x => (x - meanQ w) ^ 2)).sum) / w.length

/-- `np.var` with its NaN-on-empty behaviour; the scripts store
`np.std = sqrt` of this value per setpoint. -/
def npVar (w : List ℚ) : NpFloat :=
  if w = [] then .nan else .val (npVarQ w)

/-- `np.std` (ddof = 0) of a non-empty window, as a real number
(its square `npVarQ` is rational; the root itself is generally irrational). -/
noncomputable def npStd (w : List ℚ) : ℝ := Real.sqrt (npVarQ w)

/-- The per-setpoint aggregation the scripts perform inline in `run_cal`
(`np.mean(rawdata["volts_per_volt"])`, `np.std(rawdata["volts_per_volt"])`):
mean of the window together with the square of the stored standard deviation. -/
def summarize (w : List ℚ) : NpFloat × NpFloat := (npMean w, npVar w)

/-- Errors raised by `scipy.stats.linregress`: mismatched input lengths, and
the `ValueError` raised when all x values are identical (zero variance in the
independent variable; this also covers inputs with fewer than two points,
whose x-variance is likewise zero). -/
inductive RegressError where
  | mismatchedLength : RegressError
  | degenerateInput : RegressError
deriving DecidableEq, Repr

/-- Sum of squared deviations of `xs` from its mean. -/
def ssd (xs : List ℚ) : ℚ := ((xs.map (fun x => (x - meanQ xs) ^ 2)).sum)

/-- Sum of products of deviations of paired entries from the two means. -/
def sxy (xs ys : List ℚ) : ℚ :=
  (((xs.zip ys).map (fun p => (p.1 - meanQ xs) * (p.2 - meanQ ys))).sum)

/-- Slope and intercept of `scipy.stats.linregress(x, y)` (x independent,
y dependent): slope = Σ(x−x̄)(y−ȳ)/Σ(x−x̄)², intercept = ȳ − slope·x̄.
Raises on mismatched lengths and on zero x-variance.  The correlation
coefficient, p-value and standard error also returned by scipy involve square
roots and the Student-t distribution and are not needed by any claim. -/
def linregress (x y : List ℚ) : Except RegressError (ℚ × ℚ) :=
  if x.length ≠ y.length then .error .mismatchedLength
  else if ssd x = 0 then .error .degenerateInput
  else
    let slope := sxy x y / ssd x
    .ok (slope, meanQ y - slope * meanQ x)

/-- Extract the values of a list of numpy floats; `none` if any entry is NaN. -/
def allVal : List NpFloat → Option (List ℚ)
  | [] => some []
  | .nan :: _ => none
  | .val q :: rest => (allVal rest).map (fun l => q :: l)

/-- A hardware/DAQ fault raised by the acquisition collaborator
(`daqmx` in the scripts). -/
inductive AcqError where
  | deviceFault : AcqError
  | timeout : AcqError
deriving DecidableEq, Repr

/-- Sweep direction strings accepted by `create_dataframe`. -/
inductive Direction where
  | ascending : Direction
  | descending : Direction
deriving DecidableEq, Repr

/-- `np.linspace(a, b, n)`: `n` evenly spaced points from `a` to `b`
inclusive. -/
def linspace (a b : ℚ) (n : ℕ) : List ℚ :=
  if n = 0 then []
  else if n = 1 then [a]
  else (List.range n).map (fun i : ℕ => a + (i : ℚ) * ((b - a) / ((n : ℚ) - 1)))

/-- An error aborting a calibration run: either the acquisition collaborator
raised, or `scipy.stats.linregress` raised; in the scripts both propagate as
uncaught Python exceptions. -/
inductive RunError where
  | acquisition : AcqError → RunError
  | regression : RegressError → RunError
deriving DecidableEq, Repr

/-- `true` exactly when an `Except` value is `ok`. -/
def exceptIsOk {ε α : Type _} : Except ε α → Bool
  | .ok _ => true
  | .error _ => false

instance {ε α : Type _} [DecidableEq ε] [DecidableEq α] : DecidableEq (Except ε α)
  | .ok a, .ok b =>
    if h : a = b then .isTrue (by rw [h]) else .isFalse (by intro hc; cases hc; exact h rfl)
  | .ok _, .error _ => .isFalse (by intro hc; cases hc)
  | .error _, .ok _ => .isFalse (by intro hc; cases hc)
  | .error e, .error e' =>
    if h : e = e' then .isTrue (by rw [h]) else .isFalse (by intro hc; cases hc; exact h rfl)

namespace DragLeft

/-- Conversion constant used by `drag_left/run.py`: newtons per pound-force. -/
def lbf_newtons : ℚ := 444822162 / 100000000

/-- `min_force` module constant (lbf). -/
def min_force : ℚ := 0

/-- `max_force` module constant (lbf). -/
def max_force : ℚ := 500

/-- `steps_ascending` module constant. -/
def steps_ascending : ℕ := 2

/-- `steps_descending` module constant. -/
def steps_descending : ℕ := 2

/-- `create_dataframe(direction)`: the `nominal_force` column,
`np.linspace` between the bound constants (here passed explicitly) in the
direction's order.  The remaining columns are zero-initialised and then
overwritten inside `run_cal`, so only the nominal column is modelled. -/
def create_dataframe (lo hi : ℚ) (nA nD : ℕ) : Direction → List ℚ
  | .ascending => linspace lo hi nA
  | .descending => linspace hi lo nD

/-- One row of the calibration dataframe as filled inside the `run_cal` loop;
`var_volts_per_volt` is the square of the stored `std_volts_per_volt`. -/
structure LoopRow where
  nominal_force : ℚ
  initial_force : ℚ
  final_force : ℚ
  mean_volts_per_volt : NpFloat
  var_volts_per_volt : NpFloat
deriving DecidableEq, Repr

/-- A dataframe row after `run_cal` adds the derived
`mean_force_lbf` / `mean_force_newtons` columns. -/
structure Row extends LoopRow where
  mean_force_lbf : ℚ
  mean_force_newtons : ℚ
deriving DecidableEq, Repr

/-- The `mean_force_newtons` column:
average of the two operator readings (lbf) times the lbf→N constant. -/
def mean_force_newtons (initial final : ℚ) : ℚ :=
  (initial + final) / 2 * lbf_newtons

/-- Slope, intercept and unit label of the dict built by `regress`;
slope and intercept are NaN when the inputs contain NaN. -/
structure RegressionResult where
  slope : NpFloat
  intercept : NpFloat
  units : String
deriving DecidableEq, Repr

/-- `regress(applied_force, volts_per_volt)` from `drag_left/run.py`:
`scipy.stats.linregress(volts_per_volt, applied_force)` with unit label
"N/(V/V)".  NaN signal entries (empty windows) propagate to NaN statistics. -/
def regress (applied_force : List ℚ) (volts_per_volt : List NpFloat) :
    Except RegressError RegressionResult :=
  match allVal volts_per_volt with
  | none => .ok { slope := .nan, intercept := .nan, units := "N/(V/V)" }
  | some xs =>
    match linregress xs applied_force with
    | .error e => .error e
    | .ok (s, b) => .ok { slope := .val s, intercept := .val b, units := "N/(V/V)" }

/-- The per-setpoint loop of `run_cal`: for setpoint index `i`, prompt the
initial reading, call the acquisition collaborator (`collect_data`), prompt
the final reading, and aggregate the window.  An acquisition fault propagates
(there is no try/except in the script). -/
def sweepRows (acquire : ℕ → Except AcqError (List ℚ)) (opInitial opFinal : ℕ → ℚ) :
    List ℚ → ℕ → Except RunError (List LoopRow)
  | [], _ => .ok []
  | f :: rest, i =>
    match acquire i with
    | .error e => .error (.acquisition e)
    | .ok w =>
      match sweepRows acquire opInitial opFinal rest (i + 1) with
      | .error e => .error e
      | .ok tail =>
        .ok ({ nominal_force := f, initial_force := opInitial i,
               final_force := opFinal i, mean_volts_per_volt := npMean w,
               var_volts_per_volt := npVar w } :: tail)

/-- The two derived columns added after the loop:
`df["mean_force_lbf"] = (df.initial_force + df.final_force)/2` and
`df["mean_force_newtons"] = df.mean_force_lbf*4.44822162`. -/
def addMeanColumns (loops : List LoopRow) : List Row :=
  loops.map (fun r =>
    { toLoopRow := r,
      mean_force_lbf := (r.initial_force + r.final_force) / 2,
      mean_force_newtons := mean_force_newtons r.initial_force r.final_force })

/-- `run_cal(direction)`: build the nominal column, run the setpoint loop,
add the derived force columns, and regress newtons against signal.
A scipy error propagates out of `run_cal` like any Python exception. -/
def run_cal (lo hi : ℚ) (nA nD : ℕ) (d : Direction)
    (acquire : ℕ → Except AcqError (List ℚ)) (opInitial opFinal : ℕ → ℚ) :
    Except RunError (List Row × RegressionResult) :=
  match sweepRows acquire opInitial opFinal (create_dataframe lo hi nA nD d) 0 with
  | .error e => .error e
  | .ok loops =>
    match regress ((addMeanColumns loops).map (·.mean_force_newtons))
        ((addMeanColumns loops).map (·.mean_volts_per_volt)) with
    | .error e => .error (.regression e)
    | .ok reg => .ok (addMeanColumns loops, reg)

/-- The in-memory results at the moment `main` calls `save_metadata`:
the metadata dict (side, channel, the three regressions, timestamp omitted)
together with the merged dataframe `df_all`. -/
structure CalibrationRecord where
  side : String
  phys_chan : String
  reg_ascending : RegressionResult
  reg_descending : RegressionResult
  reg_all : RegressionResult
  df_all : List Row
deriving DecidableEq, Repr

/-- `main()`: run the ascending then the descending calibration, append the
two dataframes, regress the merged table, and assemble the record that
`save_metadata` writes.  Any uncaught exception aborts before the write. -/
def main (lo hi : ℚ) (nA nD : ℕ)
    (acquireA acquireD : ℕ → Except AcqError (List ℚ))
    (opIA opFA opID opFD : ℕ → ℚ) : Except RunError CalibrationRecord :=
  match run_cal lo hi nA nD .ascending acquireA opIA opFA with
  | .error e => .error e
  | .ok (dfA, regA) =>
    match run_cal lo hi nA nD .descending acquireD opID opFD with
    | .error e => .error e
    | .ok (dfD, regD) =>
      match regress ((dfA ++ dfD).map (·.mean_force_newtons))
          ((dfA ++ dfD).map (·.mean_volts_per_volt)) with
      | .error e => .error (.regression e)
      | .ok regAll =>
        .ok { side := "left", phys_chan := "ai1", reg_ascending := regA,
              reg_descending := regD, reg_all := regAll, df_all := dfA ++ dfD }

/-- Slope of the regression of a completed `run_cal`, if the run completed. -/
def runSlope (r : Except RunError (List Row × RegressionResult)) : Option NpFloat :=
  match r with
  | .ok (_, reg) => some reg.slope
  | .error _ => none

/-- Intercept of the regression of a completed `run_cal`. -/
def runIntercept (r : Except RunError (List Row × RegressionResult)) : Option NpFloat :=
  match r with
  | .ok (_, reg) => some reg.intercept
  | .error _ => none

end DragLeft

namespace TorqueArm

/-- `cal_length` module constant of `torque_arm/run.py`:
length of the calibration arm in meters. -/
def cal_length : ℚ := 2032 / 10000

/-- `nm_to_lbf(nm)`: equivalent load-cell reading in pound-force for a torque
in newton-meters. -/
def nm_to_lbf (nm : ℚ) : ℚ := nm / cal_length * (224808943 / 1000000000)

/-- `lbf_to_nm(lbf)`: equivalent torque in newton-meters for an applied load
in pound-force. -/
def lbf_to_nm (lbf : ℚ) : ℚ := lbf * (444822162 / 100000000) * cal_length

/-- The `mean_torque` column of the torque-arm `run_cal`: each operator
reading (lbf) is converted with `lbf_to_nm` when stored
(`initial_torque` / `final_torque`) and the two are then averaged. -/
def mean_torque (initial_force final_force : ℚ) : ℚ :=
  (lbf_to_nm initial_force + lbf_to_nm final_force) / 2

end TorqueArm

/-! ### Helper lemmas -/

theorem sum_of_const (l : List ℚ) (c : ℚ) (h : ∀ x ∈ l, x = c) :
    l.sum = l.length * c := by
  rw [List.sum_eq_card_nsmul l c h, nsmul_eq_mul]

theorem meanQ_of_const (l : List ℚ) (c : ℚ) (h : ∀ x ∈ l, x = c) (hne : l ≠ []) :
    meanQ l = c := by
  have hlen : (l.length : ℚ) ≠ 0 := by
    simpa using hne
  rw [meanQ, sum_of_const l c h, mul_comm, mul_div_assoc, div_self hlen, mul_one]

theorem ssd_of_const (l : List ℚ) (c : ℚ) (h : ∀ x ∈ l, x = c) : ssd l = 0 := by
  rcases eq_or_ne l [] with rfl | hne
  · simp [ssd]
  · rw [ssd]
    apply List.sum_eq_zero
    intro y hy
    rcases List.mem_map.mp hy with ⟨x, hx, rfl⟩
    rw [h x hx, meanQ_of_const l c h hne]
    ring

theorem allVal_of_const (xs : List NpFloat) (c : ℚ) (h : ∀ v ∈ xs, v = .val c) :
    allVal xs = some (List.replicate xs.length c) := by
  induction xs with
  | nil => rfl
  | cons v rest ih =>
    have hv : v = .val c := h v (List.mem_cons_self v rest)
    subst hv
    rw [allVal, ih fun u hu => h u (List.mem_cons_of_mem _ hu)]
    simp [List.replicate_succ]

theorem linspace_length (a b : ℚ) (n : ℕ) : (linspace a b n).length = n := by
  rcases n with _ | _ | n <;> simp [linspace]

theorem linspace_getElem (a b : ℚ) (n i : ℕ) (h2 : 2 ≤ n) (hi : i < n) :
    (linspace a b n)[i]? = some (a + (i : ℚ) * ((b - a) / ((n : ℚ) - 1))) := by
  have h0 : n ≠ 0 := by omega
  have h1 : n ≠ 1 := by omega
  rw [linspace, if_neg h0, if_neg h1, List.getElem?_map, List.getElem?_range hi]
  rfl

theorem linspace_first (a b : ℚ) (n : ℕ) (h2 : 2 ≤ n) :
    (linspace a b n)[0]? = some a := by
  rw [linspace_getElem a b n 0 h2 (by omega)]
  norm_num

theorem linspace_last (a b : ℚ) (n : ℕ) (h2 : 2 ≤ n) :
    (linspace a b n)[n - 1]? = some b := by
  rw [linspace_getElem a b n (n - 1) h2 (by omega)]
  have hcast : ((n - 1 : ℕ) : ℚ) = (n : ℚ) - 1 := by
    have : 1 ≤ n := by omega
    push_cast [this]
    ring
  have hne : ((n : ℚ) - 1) ≠ 0 := by
    have : (2 : ℚ) ≤ (n : ℚ) := by exact_mod_cast h2
    linarith
  have hval : a + ((n - 1 : ℕ) : ℚ) * ((b - a) / ((n : ℚ) - 1)) = b := by
    rw [hcast]
    field_simp
  rw [hval]

theorem linspace_pairwise_lt (a b : ℚ) (n : ℕ) (h : a < b) :
    (linspace a b n).Pairwise (· < ·) := by
  rcases Nat.lt_or_ge n 2 with hn | hn
  · interval_cases n <;> simp [linspace]
  · have h0 : n ≠ 0 := by omega
    have h1 : n ≠ 1 := by omega
    rw [linspace, if_neg h0, if_neg h1, List.pairwise_map]
    have hd : 0 < (b - a) / ((n : ℚ) - 1) := by
      apply div_pos (sub_pos.mpr h)
      have : (2 : ℚ) ≤ (n : ℚ) := by exact_mod_cast hn
      linarith
    refine (List.pairwise_lt_range n).imp ?_
    intro i j hij
    have hq : (i : ℚ) < (j : ℚ) := by exact_mod_cast hij
    have := mul_lt_mul_of_pos_right hq hd
    linarith

theorem linspace_pairwise_gt (a b : ℚ) (n : ℕ) (h : b < a) :
    (linspace a b n).Pairwise (· > ·) := by
  rcases Nat.lt_or_ge n 2 with hn | hn
  · interval_cases n <;> simp [linspace]
  · have h0 : n ≠ 0 := by omega
    have h1 : n ≠ 1 := by omega
    rw [linspace, if_neg h0, if_neg h1, List.pairwise_map]
    have hd : (b - a) / ((n : ℚ) - 1) < 0 := by
      apply div_neg_of_neg_of_pos (sub_neg.mpr h)
      have : (2 : ℚ) ≤ (n : ℚ) := by exact_mod_cast hn
      linarith
    refine (List.pairwise_lt_range n).imp ?_
    intro i j hij
    have hq : (i : ℚ) < (j : ℚ) := by exact_mod_cast hij
    have := mul_lt_mul_of_neg_right hq hd
    simp only [gt_iff_lt]
    linarith

theorem DragLeft.sweepRows_ok_length (acquire : ℕ → Except AcqError (List ℚ))
    (opI opF : ℕ → ℚ) (l : List ℚ) (i : ℕ) (rows : List LoopRow)
    (h : sweepRows acquire opI opF l i = .ok rows) :
    rows.length = l.length := by
  induction l generalizing i rows with
  | nil =>
    simp only [sweepRows] at h
    cases h
    rfl
  | cons f rest ih =>
    simp only [sweepRows] at h
    cases hacq : acquire i with
    | error e => rw [hacq] at h; cases h
    | ok w =>
      rw [hacq] at h
      cases hrec : sweepRows acquire opI opF rest (i + 1) with
      | error e => rw [hrec] at h; cases h
      | ok tail =>
        rw [hrec] at h
        cases h
        simp [ih (i + 1) tail hrec]

theorem DragLeft.sweepRows_error_of_acq (acquire : ℕ → Except AcqError (List ℚ))
    (opI opF : ℕ → ℚ) (l : List ℚ) (i : ℕ)
    (h : ∃ k, k < l.length ∧ exceptIsOk (acquire (i + k)) = false) :
    exceptIsOk (sweepRows acquire opI opF l i) = false := by
  induction l generalizing i with
  | nil =>
    obtain ⟨k, hk, _⟩ := h
    simp at hk
  | cons f rest ih =>
    obtain ⟨k, hk, hbad⟩ := h
    simp only [sweepRows]
    cases hacq : acquire i with
    | error e => rfl
    | ok w =>
      cases k with
      | zero =>
        rw [Nat.add_zero, hacq] at hbad
        cases hbad
      | succ k' =>
        have hr : ∃ m, m < rest.length ∧ exceptIsOk (acquire (i + 1 + m)) = false := by
          refine ⟨k', ?_, ?_⟩
          · simpa using Nat.lt_of_succ_lt_succ (by simpa using hk)
          · have : i + 1 + k' = i + (k' + 1) := by omega
            rw [this]
            exact hbad
        have hrec := ih (i + 1) hr
        cases hs : sweepRows acquire opI opF rest (i + 1) with
        | error e => rfl
        | ok tail => rw [hs] at hrec; cases hrec

theorem DragLeft.run_cal_ok_length (lo hi : ℚ) (nA nD : ℕ) (d : Direction)
    (acquire : ℕ → Except AcqError (List ℚ)) (opI opF : ℕ → ℚ)
    (df : List Row) (reg : RegressionResult)
    (h : run_cal lo hi nA nD d acquire opI opF = .ok (df, reg)) :
    df.length = (create_dataframe lo hi nA nD d).length := by
  rw [run_cal] at h
  split at h
  · exact Except.noConfusion h
  · rename_i loops hs
    split at h
    · exact Except.noConfusion h
    · simp only [Except.ok.injEq, Prod.mk.injEq] at h
      obtain ⟨h1, -⟩ := h
      subst h1
      simpa [addMeanColumns] using sweepRows_ok_length acquire opI opF _ 0 loops hs

theorem DragLeft.run_cal_error_of_acq (lo hi : ℚ) (nA nD : ℕ) (d : Direction)
    (acquire : ℕ → Except AcqError (List ℚ)) (opI opF : ℕ → ℚ)
    (h : ∃ k, k < (create_dataframe lo hi nA nD d).length ∧
      exceptIsOk (acquire k) = false) :
    exceptIsOk (run_cal lo hi nA nD d acquire opI opF) = false := by
  have hs := sweepRows_error_of_acq acquire opI opF (create_dataframe lo hi nA nD d) 0
    (by simpa using h)
  rw [run_cal]
  split
  · rfl
  · rename_i loops hval
    rw [hval] at hs
    simp [exceptIsOk] at hs

/-! ### Claim C6 -/

/-- C6: for every valid configuration (lower bound < upper bound and
stepCount ≥ 2), `create_dataframe` produces exactly stepCount nominal
setpoints, strictly increasing for the ascending direction and strictly
decreasing for the descending direction, whose first and last entries equal
the respective bounds exactly. -/
theorem DragLeft.create_dataframe_setpoint_sequence (lo hi : ℚ) (n : ℕ)
    (hb : lo < hi) (hn : 2 ≤ n) :
    (create_dataframe lo hi n n .ascending).length = n ∧
    (create_dataframe lo hi n n .descending).length = n ∧
    (create_dataframe lo hi n n .ascending).Pairwise (· < ·) ∧
    (create_dataframe lo hi n n .descending).Pairwise (· > ·) ∧
    (create_dataframe lo hi n n .ascending)[0]? = some lo ∧
    (create_dataframe lo hi n n .ascending)[n - 1]? = some hi ∧
    (create_dataframe lo hi n n .descending)[0]? = some hi ∧
    (create_dataframe lo hi n n .descending)[n - 1]? = some lo :=
  ⟨linspace_length lo hi n, linspace_length hi lo n,
   linspace_pairwise_lt lo hi n hb, linspace_pairwise_gt hi lo n hb,
   linspace_first lo hi n hn, linspace_last lo hi n hn,
   linspace_first hi lo n hn, linspace_last hi lo n hn⟩

/-- Witness for C6 at the drag-script configuration `(0, 500, 2)`. -/
theorem DragLeft.create_dataframe_setpoint_sequence_witness :
    (0 : ℚ) < 500 ∧ 2 ≤ 2 ∧
    ((create_dataframe 0 500 2 2 .ascending).length = 2 ∧
     (create_dataframe 0 500 2 2 .descending).length = 2 ∧
     (create_dataframe 0 500 2 2 .ascending).Pairwise (· < ·) ∧
     (create_dataframe 0 500 2 2 .descending).Pairwise (· > ·) ∧
     (create_dataframe 0 500 2 2 .ascending)[0]? = some 0 ∧
     (create_dataframe 0 500 2 2 .ascending)[2 - 1]? = some 500 ∧
     (create_dataframe 0 500 2 2 .descending)[0]? = some 500 ∧
     (create_dataframe 0 500 2 2 .descending)[2 - 1]? = some 0) :=
  ⟨by norm_num, le_refl 2,
   create_dataframe_setpoint_sequence 0 500 2 (by norm_num) (le_refl 2)⟩

/-! ### Claim C7 -/

/-- C7: the unit-converter round trip `nm_to_lbf (lbf_to_nm x)` returns `x`
to within `1e-9` relative tolerance for every rational input: the lever-arm
length cancels exactly and the residual factor
`4.44822162 × 0.224808943 = 1 + 62194766e-17` is within `6.22e-10` of 1. -/
theorem TorqueArm.unit_roundtrip_within_tolerance (x : ℚ) :
    |nm_to_lbf (lbf_to_nm x) - x| ≤ (1 / 1000000000) * |x| := by
  have h : nm_to_lbf (lbf_to_nm x) - x = (62194766 / 100000000000000000) * x := by
    unfold nm_to_lbf lbf_to_nm cal_length
    ring
  rw [h, abs_mul]
  apply mul_le_mul_of_nonneg_right _ (abs_nonneg x)
  rw [abs_of_nonneg (by norm_num)]
  norm_num

/-! ### Claim C10 -/

/-- C10: converting each operator reading to newton-meters and then averaging
equals converting the average (`lbf_to_nm` is linear), so the torque-arm
`mean_torque` computation equals the drag-script `mean_force_newtons`
computation scaled by the lever-arm length. -/
theorem TorqueArm.convert_average_commute (i f : ℚ) :
    lbf_to_nm ((i + f) / 2) = (lbf_to_nm i + lbf_to_nm f) / 2 ∧
    mean_torque i f = cal_length * DragLeft.mean_force_newtons i f := by
  constructor
  · unfold lbf_to_nm
    ring
  · unfold mean_torque lbf_to_nm cal_length DragLeft.mean_force_newtons DragLeft.lbf_newtons
    ring

/-! ### Claim C1 -/

/-- The C1 end-to-end acquisition stub: constant signal 0.0 at the first
setpoint (nominal 0 lbf) and constant 0.01 V/V at the second (nominal 500). -/
def DragLeft.scenAcquire : ℕ → Except AcqError (List ℚ)
  | 0 => .ok [0, 0]
  | _ + 1 => .ok [1/100, 1/100]

/-- The C1 operator stub: confirmations equal to the nominal setpoint values
`[0, 500]`. -/
def DragLeft.scenOp : ℕ → ℚ
  | 0 => 0
  | _ + 1 => 500

/-- Full evaluation of the ascending `run_cal` on the C1 scenario: the
regression is over `mean_force_newtons`, giving slope `222411.081` N/(V/V)
and intercept `0`. -/
theorem DragLeft.scen_run_cal_eq :
    run_cal 0 500 2 2 .ascending scenAcquire scenOp scenOp
    = .ok ([{ nominal_force := 0, initial_force := 0, final_force := 0,
              mean_volts_per_volt := .val 0, var_volts_per_volt := .val 0,
              mean_force_lbf := 0, mean_force_newtons := 0 },
            { nominal_force := 500, initial_force := 500, final_force := 500,
              mean_volts_per_volt := .val (1/100), var_volts_per_volt := .val 0,
              mean_force_lbf := 500, mean_force_newtons := 222411081/100000 }],
           { slope := .val (222411081/1000), intercept := .val 0, units := "N/(V/V)" }) := by
  norm_num [run_cal, sweepRows, create_dataframe, linspace, List.range_succ,
    npMean, npVar, npVarQ, meanQ, regress, allVal, linregress, ssd, sxy,
    addMeanColumns, mean_force_newtons, lbf_newtons, scenAcquire, scenOp]
  simp

/-- C1 is false of the code: on the spec's end-to-end scenario the slope is
`222411.081`, which is not approximately `50000` (it is off by more than a
factor of four), because `run_cal` regresses the applied force in newtons,
not in pound-force. -/
theorem DragLeft.scen_slope_not_50000 :
    runSlope (run_cal 0 500 2 2 .ascending scenAcquire scenOp scenOp)
      = some (.val (222411081/1000)) ∧
    ¬(|(222411081 : ℚ)/1000 - 50000| ≤ 10000) := by
  rw [scen_run_cal_eq]
  constructor
  · rfl
  · rw [abs_of_nonneg (by norm_num)]
    norm_num

/-- C1 (amended): on the end-to-end scenario (bounds 0–500, stepCount 2,
ascending only, constant signals 0.0 and 0.01, confirmations equal to the
nominals), the regression slope is `50000 × 4.44822162 = 222411.081` in
newtons per V/V — the dependent variable is `mean_force_newtons` — and the
intercept is exactly 0. -/
theorem DragLeft.scen_slope_in_newtons :
    runSlope (run_cal 0 500 2 2 .ascending scenAcquire scenOp scenOp)
      = some (.val (50000 * lbf_newtons)) ∧
    runIntercept (run_cal 0 500 2 2 .ascending scenAcquire scenOp scenOp)
      = some (.val 0) := by
  rw [scen_run_cal_eq]
  constructor
  · show some (NpFloat.val (222411081/1000)) = some (.val (50000 * lbf_newtons))
    norm_num [lbf_newtons]
  · rfl

/-! ### Claim C2 -/

/-- C2 is false of the code for the fewer-than-3-points half: `regress` on
two paired points with distinct signal values returns a regression result
(slope 1000, intercept 0) instead of failing; no minimum-count check exists
(the drag script itself regresses 2-step sweeps). -/
theorem DragLeft.regress_two_points_ok :
    regress [0, 10] [.val 0, .val (1/100)]
      = .ok { slope := .val 1000, intercept := .val 0, units := "N/(V/V)" } := by
  norm_num [regress, allVal, linregress, ssd, sxy, meanQ]

/-- C2 (amended): `regress` fails with the degenerate-input error whenever
all signal values are identical (zero variance of the independent variable),
for input vectors of any equal length; there is no separate
insufficient-data check for fewer than 3 points. -/
theorem DragLeft.regress_const_signal_degenerate (y : List ℚ) (xs : List NpFloat)
    (c : ℚ) (hlen : xs.length = y.length) (hall : ∀ v ∈ xs, v = NpFloat.val c) :
    regress y xs = .error .degenerateInput := by
  have hv := allVal_of_const xs c hall
  have hssd : ssd (List.replicate xs.length c) = 0 :=
    ssd_of_const _ c (fun x hx => List.eq_of_mem_replicate hx)
  have hlr : linregress (List.replicate xs.length c) y = .error .degenerateInput := by
    rw [linregress, if_neg (by simpa using hlen), if_pos hssd]
  simp only [regress, hv, hlr]

/-- Witness for C2 on the spec's own example: three signal readings all
equal to 0.002 V/V. -/
theorem DragLeft.regress_const_signal_degenerate_witness :
    regress [0, 1, 2] [.val (1/500), .val (1/500), .val (1/500)]
      = .error .degenerateInput :=
  regress_const_signal_degenerate [0, 1, 2]
    [.val (1/500), .val (1/500), .val (1/500)] (1/500) rfl (by simp)

/-! ### Claim C3 -/

/-- C3 is false of the code: on a zero-sample window the inline aggregation
returns NaN for both the mean and the (squared) standard deviation — numpy
does not raise, and no `EmptyWindowError` exists in the scripts. -/
theorem summarize_empty_returns_nan :
    summarize [] = (NpFloat.nan, NpFloat.nan) := rfl

/-- C3 (amended): the inline aggregation silently returns NaN exactly on an
empty window and returns numeric values (the mean and the squared population
standard deviation) on every non-empty window; it never raises. -/
theorem summarize_nan_iff_empty (w : List ℚ) :
    (w = [] → summarize w = (NpFloat.nan, NpFloat.nan)) ∧
    (w ≠ [] → summarize w = (NpFloat.val (meanQ w), NpFloat.val (npVarQ w))) := by
  constructor
  · rintro rfl
    rfl
  · intro h
    simp [summarize, npMean, npVar, h, meanQ]

/-- Witness for C3 at the empty window and at the window `[1]`. -/
theorem summarize_nan_iff_empty_witness :
    summarize [] = (NpFloat.nan, NpFloat.nan) ∧
    summarize [1] = (NpFloat.val (meanQ [1]), NpFloat.val (npVarQ [1])) :=
  ⟨(summarize_nan_iff_empty []).1 rfl,
   (summarize_nan_iff_empty [1]).2 (by simp)⟩

/-! ### Claim C4 -/

/-- `scipy.stats.linregress` on a single point: the x-variance is zero, so it
raises the identical-x `ValueError`. -/
theorem linregress_singleton (x y : ℚ) :
    linregress [x] [y] = .error .degenerateInput := by
  simp [linregress, ssd, meanQ]

/-- C4 is false of the code: with `stepCount = 1` the run does not fail with
a configuration error before hardware acquisition — the acquisition
collaborator is invoked (its fault is what aborts the run in the first
conjunct), and when acquisition succeeds the run proceeds past it and only
fails later, inside the regression. -/
theorem DragLeft.run_cal_single_step_reaches_acquisition :
    run_cal 0 500 1 1 .ascending (fun _ => .error .deviceFault)
        (fun _ => 0) (fun _ => 0)
      = .error (.acquisition .deviceFault) ∧
    run_cal 0 500 1 1 .ascending (fun _ => .ok [0]) (fun _ => 0) (fun _ => 0)
      = .error (.regression .degenerateInput) := by
  constructor
  · rfl
  · simp [run_cal, sweepRows, create_dataframe, linspace, regress, allVal,
      npMean, npVar, linregress_singleton, addMeanColumns]

/-- C4 (amended): the scripts perform no stepCount validation.  With
`stepCount = 1` the sweep runs: it invokes acquisition for its single
setpoint (an acquisition fault is propagated, proving the invocation
happens), and with working hardware the failure surfaces only at regression
time, as the degenerate-input error on the single-point fit.  With
`stepCount = 0` the sweep performs no acquisition and the regression fails
on the empty input. -/
theorem DragLeft.run_cal_no_stepcount_validation (lo hi : ℚ) (opI opF : ℕ → ℚ)
    (e : AcqError) (w : List ℚ) (hw : w ≠ []) :
    run_cal lo hi 1 1 .ascending (fun _ => .error e) opI opF
      = .error (.acquisition e) ∧
    run_cal lo hi 1 1 .ascending (fun _ => .ok w) opI opF
      = .error (.regression .degenerateInput) ∧
    run_cal lo hi 0 0 .ascending (fun _ => .ok w) opI opF
      = .error (.regression .degenerateInput) := by
  refine ⟨rfl, ?_, rfl⟩
  simp [run_cal, sweepRows, create_dataframe, linspace, regress, allVal,
    npMean, npVar, hw, linregress_singleton, addMeanColumns]

/-- Witness for C4 at bounds 2–7, operator readings 1, a timeout fault and
the single-sample window `[1]`. -/
theorem DragLeft.run_cal_no_stepcount_validation_witness :
    ([1] : List ℚ) ≠ [] ∧
    (run_cal 2 7 1 1 .ascending (fun _ => .error .timeout)
         (fun _ => 1) (fun _ => 1)
       = .error (.acquisition .timeout) ∧
     run_cal 2 7 1 1 .ascending (fun _ => .ok [1]) (fun _ => 1) (fun _ => 1)
       = .error (.regression .degenerateInput) ∧
     run_cal 2 7 0 0 .ascending (fun _ => .ok [1]) (fun _ => 1) (fun _ => 1)
       = .error (.regression .degenerateInput)) :=
  ⟨by simp,
   run_cal_no_stepcount_validation 2 7 (fun _ => 1) (fun _ => 1) .timeout [1] (by simp)⟩

/-! ### Claim C5 -/

/-- C5: if any direction's sweep fails — in particular when the acquisition
collaborator faults at some setpoint of that direction — the orchestrator
`main` aborts without producing a CalibrationRecord (its result is not `ok`),
and every sweep table `run_cal` does return as `ok` has exactly the
configured step count for its direction, so no shorter SweepResult is ever
returned as valid. -/
theorem DragLeft.main_aborts_without_record (lo hi : ℚ) (nA nD : ℕ)
    (acqA acqD : ℕ → Except AcqError (List ℚ)) (opIA opFA opID opFD : ℕ → ℚ) :
    ((∃ k, k < nA ∧ exceptIsOk (acqA k) = false) →
      exceptIsOk (run_cal lo hi nA nD .ascending acqA opIA opFA) = false) ∧
    (exceptIsOk (run_cal lo hi nA nD .ascending acqA opIA opFA) = false →
      exceptIsOk (main lo hi nA nD acqA acqD opIA opFA opID opFD) = false) ∧
    (exceptIsOk (run_cal lo hi nA nD .descending acqD opID opFD) = false →
      exceptIsOk (main lo hi nA nD acqA acqD opIA opFA opID opFD) = false) ∧
    (∀ d acq opI opF df reg, run_cal lo hi nA nD d acq opI opF = .ok (df, reg) →
      df.length = (match d with | Direction.ascending => nA | Direction.descending => nD)) := by
  refine ⟨?_, ?_, ?_, ?_⟩
  · intro h
    apply run_cal_error_of_acq
    obtain ⟨k, hk, hbad⟩ := h
    refine ⟨k, ?_, hbad⟩
    show k < (linspace lo hi nA).length
    rw [linspace_length]
    exact hk
  · intro h
    rw [main]
    split
    · rfl
    · rename_i dfA regA hA
      rw [hA] at h
      simp [exceptIsOk] at h
  · intro h
    rw [main]
    split
    · rfl
    · rename_i dfA regA hA
      split
      · rfl
      · rename_i dfD regD hD
        rw [hD] at h
        simp [exceptIsOk] at h
  · intro d acq opI opF df reg h
    have hlen := run_cal_ok_length lo hi nA nD d acq opI opF df reg h
    cases d
    · simpa [create_dataframe, linspace_length] using hlen
    · simpa [create_dataframe, linspace_length] using hlen

/-- Acquisition stub for the C5 witness: succeeds at the first setpoint and
faults (`AcquisitionError`) at the second. -/
def DragLeft.failAcquire : ℕ → Except AcqError (List ℚ)
  | 0 => .ok [0, 0]
  | _ + 1 => .error .deviceFault

/-- Witness for C5: with an acquisition fault at the second setpoint of the
drag configuration, `main` does not produce a record. -/
theorem DragLeft.main_aborts_without_record_witness :
    exceptIsOk (DragLeft.main 0 500 2 2 DragLeft.failAcquire DragLeft.failAcquire
      DragLeft.scenOp DragLeft.scenOp DragLeft.scenOp DragLeft.scenOp) = false :=
  (DragLeft.main_aborts_without_record 0 500 2 2 DragLeft.failAcquire DragLeft.failAcquire
      DragLeft.scenOp DragLeft.scenOp DragLeft.scenOp DragLeft.scenOp).2.1
    ((DragLeft.main_aborts_without_record 0 500 2 2 DragLeft.failAcquire DragLeft.failAcquire
        DragLeft.scenOp DragLeft.scenOp DragLeft.scenOp DragLeft.scenOp).1
      ⟨1, by norm_num, rfl⟩)

/-! ### Claim C8 -/

/-- C8: on every non-empty window the inline summarization returns the
arithmetic mean of the signal values and the population variance (divisor
`n`, whose square root is the stored standard deviation); in particular on
`[1.0, 2.0, 3.0]` it returns mean 2, squared standard deviation `2/3`, and
the standard deviation itself is within `0.001` of `0.816`. -/
theorem summarize_mean_popstd (w : List ℚ) (hw : w ≠ []) :
    summarize w = (NpFloat.val (w.sum / w.length), NpFloat.val (npVarQ w)) ∧
    summarize [1, 2, 3] = (NpFloat.val 2, NpFloat.val (2/3)) ∧
    |npStd [1, 2, 3] - 0.816| < 1/1000 := by
  refine ⟨?_, ?_, ?_⟩
  · simp [summarize, npMean, npVar, hw]
  · norm_num [summarize, npMean, npVar, npVarQ, meanQ]
    simp
  · have h23 : npVarQ [1, 2, 3] = 2/3 := by norm_num [npVarQ, meanQ]
    rw [npStd, h23]
    have hcast : (((2 : ℚ)/3 : ℚ) : ℝ) = 2/3 := by push_cast; ring
    rw [hcast]
    have h1 : Real.sqrt (2/3) < 0.817 := by
      apply (Real.sqrt_lt' (by norm_num)).mpr
      norm_num
    have h2 : (0.815 : ℝ) < Real.sqrt (2/3) := by
      apply (Real.lt_sqrt (by norm_num)).mpr
      norm_num
    rw [abs_sub_lt_iff]
    constructor <;> [linarith; linarith]

/-- Witness for C8 at the window `[1, 2, 3]`. -/
theorem summarize_mean_popstd_witness :
    summarize [1, 2, 3]
      = (NpFloat.val (([1, 2, 3] : List ℚ).sum / ([1, 2, 3] : List ℚ).length),
         NpFloat.val (npVarQ [1, 2, 3])) ∧
    summarize [1, 2, 3] = (NpFloat.val 2, NpFloat.val (2/3)) ∧
    |npStd [1, 2, 3] - 0.816| < 1/1000 :=
  summarize_mean_popstd [1, 2, 3] (by simp)

/-! ### Claim C9 -/

/-- C9: when `main` completes, its merged table is exactly the ascending
sweep's rows followed by the descending sweep's rows (each in
within-direction order, witnessed element-by-element), its length is the sum
of the two directions' step counts, and the merged regression stored in the
record is the regression of the concatenated columns. -/
theorem DragLeft.main_merged_order (lo hi : ℚ) (nA nD : ℕ)
    (acqA acqD : ℕ → Except AcqError (List ℚ)) (opIA opFA opID opFD : ℕ → ℚ)
    (rec : CalibrationRecord)
    (h : main lo hi nA nD acqA acqD opIA opFA opID opFD = .ok rec) :
    (∀ dfA regA dfD regD,
        run_cal lo hi nA nD .ascending acqA opIA opFA = .ok (dfA, regA) →
        run_cal lo hi nA nD .descending acqD opID opFD = .ok (dfD, regD) →
        rec.df_all = dfA ++ dfD ∧ dfA.length = nA ∧ dfD.length = nD ∧
        (∀ i, i < nA → rec.df_all[i]? = dfA[i]?) ∧
        (∀ j, j < nD → rec.df_all[nA + j]? = dfD[j]?)) ∧
    rec.df_all.length = nA + nD ∧
    regress (rec.df_all.map (·.mean_force_newtons))
        (rec.df_all.map (·.mean_volts_per_volt)) = .ok rec.reg_all ∧
    exceptIsOk (run_cal lo hi nA nD .ascending acqA opIA opFA) = true ∧
    exceptIsOk (run_cal lo hi nA nD .descending acqD opID opFD) = true := by
  rw [main] at h
  split at h
  · exact Except.noConfusion h
  · rename_i dfA regA hA
    split at h
    · exact Except.noConfusion h
    · rename_i dfD regD hD
      split at h
      · exact Except.noConfusion h
      · rename_i regAll hall
        simp only [Except.ok.injEq] at h
        subst h
        have hlA : dfA.length = nA := by
          simpa [create_dataframe, linspace_length] using
            run_cal_ok_length lo hi nA nD .ascending acqA opIA opFA dfA regA hA
        have hlD : dfD.length = nD := by
          simpa [create_dataframe, linspace_length] using
            run_cal_ok_length lo hi nA nD .descending acqD opID opFD dfD regD hD
        refine ⟨?_, ?_, ?_, ?_, ?_⟩
        · intro dfA' regA' dfD' regD' hA' hD'
          rw [hA] at hA'
          rw [hD] at hD'
          simp only [Except.ok.injEq, Prod.mk.injEq] at hA' hD'
          obtain ⟨h1, -⟩ := hA'
          obtain ⟨h2, -⟩ := hD'
          subst h1
          subst h2
          refine ⟨rfl, hlA, hlD, ?_, ?_⟩
          · intro i hi
            exact List.getElem?_append_left (by omega)
          · intro j hj
            rw [List.getElem?_append_right (by omega)]
            congr 1
            omega
        · simp [hlA, hlD]
        · exact hall
        · rw [hA]
          rfl
        · rw [hD]
          rfl

/-- The full calibration record produced by `main` on the C1/C9 scenario run
in both directions. -/
def DragLeft.scenRecord : CalibrationRecord :=
  { side := "left", phys_chan := "ai1",
    reg_ascending := { slope := .val (222411081/1000), intercept := .val 0,
                       units := "N/(V/V)" },
    reg_descending := { slope := .val (222411081/1000), intercept := .val 0,
                        units := "N/(V/V)" },
    reg_all := { slope := .val (222411081/1000), intercept := .val 0,
                 units := "N/(V/V)" },
    df_all := [{ nominal_force := 0, initial_force := 0, final_force := 0,
                 mean_volts_per_volt := .val 0, var_volts_per_volt := .val 0,
                 mean_force_lbf := 0, mean_force_newtons := 0 },
               { nominal_force := 500, initial_force := 500, final_force := 500,
                 mean_volts_per_volt := .val (1/100), var_volts_per_volt := .val 0,
                 mean_force_lbf := 500, mean_force_newtons := 222411081/100000 },
               { nominal_force := 500, initial_force := 0, final_force := 0,
                 mean_volts_per_volt := .val 0, var_volts_per_volt := .val 0,
                 mean_force_lbf := 0, mean_force_newtons := 0 },
               { nominal_force := 0, initial_force := 500, final_force := 500,
                 mean_volts_per_volt := .val (1/100), var_volts_per_volt := .val 0,
                 mean_force_lbf := 500, mean_force_newtons := 222411081/100000 }] }

/-- Full evaluation of `main` on the two-direction scenario run. -/
theorem DragLeft.scen_main_eq :
    main 0 500 2 2 scenAcquire scenAcquire scenOp scenOp scenOp scenOp
      = .ok scenRecord := by
  norm_num [main, scenRecord, run_cal, sweepRows, create_dataframe, linspace,
    List.range_succ, npMean, npVar, npVarQ, meanQ, regress, allVal, linregress,
    ssd, sxy, addMeanColumns, mean_force_newtons, lbf_newtons, scenAcquire, scenOp]
  simp

/-- Witness for C9: the scenario run's merged table has `2 + 2` rows. -/
theorem DragLeft.main_merged_order_witness :
    DragLeft.scenRecord.df_all.length = 2 + 2 :=
  (DragLeft.main_merged_order 0 500 2 2 DragLeft.scenAcquire DragLeft.scenAcquire
    DragLeft.scenOp DragLeft.scenOp DragLeft.scenOp DragLeft.scenOp
    DragLeft.scenRecord DragLeft.scen_main_eq).2.1
